import Mathlib

/-!
Shallow embedding of the decision core of the ALFA ALGO trading system
(risk manager, strategy base contract, RSI/MACD/options strategies).

Python floats are modelled as exact rationals (`ℚ`); Python `int(x)` is
truncation toward zero (`pyInt`); Python dicts keyed by symbol are
association lists.  Formatted warning/recommendation strings are modelled
as inductive types carrying the interpolated numeric payloads.
-/

/-- Python `int(x)` on a float: truncation toward zero. -/
def pyInt (x : ℚ) : ℤ := if 0 ≤ x then ⌊x⌋ else ⌈x⌉

/-- Python `str.upper()`, character by character (structurally recursive so
that the kernel can evaluate it on literals). -/
def pyUpper (s : String) : String := ⟨s.data.map Char.toUpper⟩

/-- Python `side.upper() == 'BUY'`. -/
def isBuy (side : String) : Bool := pyUpper side == "BUY"

/-- Risk levels (`RiskLevel` enum in `risk_manager.py`). -/
inductive RiskLevel where
  | LOW
  | MEDIUM
  | HIGH
  | CRITICAL
deriving DecidableEq, Repr

/-- Warning strings emitted by `validate_trade`; each constructor stands for
one f-string template together with its interpolated numeric values. -/
inductive Warning where
  | dailyTradeLimitExceeded
  | dailyLossLimitExceeded
  | positionRiskExceedsLimit (risk_percentage limit_percentage : ℚ)
  | positionSizeCloseToMax (position_value max_size : ℚ)
  | potentialLossSignificant (max_loss max_daily : ℚ)
  | correlationRisk
deriving DecidableEq, Repr

/-- Recommendation strings produced by `get_portfolio_risk_metrics`. -/
inductive Recommendation where
  | reducePositionSizes
  | reduceTradingActivity
  | approachingDailyTradeLimit
deriving DecidableEq, Repr

/-- Violation strings returned by `check_risk_limits`; each constructor is
one f-string template with its interpolated value. -/
inductive Violation where
  | dailyLossBreached (pnl : ℚ)
  | dailyTradeBreached (trades : ℕ)
  | portfolioRiskBreached (risk_percentage : ℚ)
deriving DecidableEq, Repr

/-- A tracked position dict in the risk manager: the fields read via
`pos.get('value', 0)` and `pos.get('max_loss', 0)`. -/
structure PositionEntry where
  value : ℚ
  max_loss : ℚ
deriving DecidableEq, Repr

/-- The `PositionRisk` dataclass of `risk_manager.py`. -/
structure PositionRisk where
  symbol : String
  quantity : ℤ
  entry_price : ℚ
  current_price : ℚ
  stop_loss : ℚ
  target_price : ℚ
  max_loss : ℚ
  risk_percentage : ℚ
  risk_level : RiskLevel
  is_valid : Bool
  warnings : List Warning
deriving DecidableEq, Repr

/-- The `RiskMetrics` dataclass of `risk_manager.py`. -/
structure RiskMetrics where
  current_value : ℚ
  max_risk : ℚ
  current_risk : ℚ
  risk_percentage : ℚ
  stop_loss_price : ℚ
  max_loss : ℚ
  risk_level : RiskLevel
  recommendations : List Recommendation
deriving DecidableEq, Repr

/-- Mutable state of the `RiskManager` class: configured limits (copied from
settings in `__init__`), daily counters, and portfolio tracking.  Calendar
dates are abstract day tokens (`ℕ`). -/
structure RiskManager where
  max_portfolio_risk : ℚ
  max_position_size : ℚ
  max_daily_loss : ℚ
  max_daily_trades : ℕ
  max_correlation_risk : ℚ
  default_stop_loss_percent : ℚ
  default_trailing_stop_percent : ℚ
  daily_trades : ℕ
  daily_pnl : ℚ
  daily_reset_date : ℕ
  portfolio_value : ℚ
  positions : List (String × PositionEntry)
deriving DecidableEq, Repr

/-- `RiskManager.reset_daily_metrics`: reset the daily counters when the
calendar date has rolled over. -/
def RiskManager.reset_daily_metrics (s : RiskManager) (today : ℕ) : RiskManager :=
  if today ≠ s.daily_reset_date then
    { s with daily_trades := 0, daily_pnl := 0, daily_reset_date := today }
  else s

/-- `RiskManager._determine_risk_level`. -/
def RiskManager.determine_risk_level (s : RiskManager) (risk_percentage : ℚ) : RiskLevel :=
  if risk_percentage ≥ s.max_portfolio_risk * 100 then RiskLevel.CRITICAL
  else if risk_percentage ≥ s.max_portfolio_risk * 75 then RiskLevel.HIGH
  else if risk_percentage ≥ s.max_portfolio_risk * 50 then RiskLevel.MEDIUM
  else RiskLevel.LOW

/-- `RiskManager._check_correlation_risk` (the `symbol` argument is unused in
the source as well). -/
def RiskManager.check_correlation_risk (s : RiskManager) (_symbol : String)
    (position_value : ℚ) : List Warning :=
  if s.positions.length > 1 then
    let total_exposure := (s.positions.map (fun p => p.2.value)).sum
    let new_total := total_exposure + position_value
    if new_total > s.portfolio_value * s.max_correlation_risk then
      [Warning.correlationRisk]
    else []
  else []

/-- `RiskManager._update_portfolio_metrics`: overwrite `portfolio_value` with
the sum of tracked position values. -/
def RiskManager.update_portfolio_metrics (s : RiskManager) : RiskManager :=
  { s with portfolio_value := (s.positions.map (fun p => p.2.value)).sum }

/-- `RiskManager.get_portfolio_risk_metrics`: mutates the state through
`_update_portfolio_metrics`, then assembles a `RiskMetrics` snapshot. -/
def RiskManager.get_portfolio_risk_metrics (s0 : RiskManager) :
    RiskManager × RiskMetrics :=
  let s := s0.update_portfolio_metrics
  let total_risk := (s.positions.map (fun p => p.2.max_loss)).sum
  let current_risk_percentage :=
    if s.portfolio_value > 0 then total_risk / s.portfolio_value * 100 else 0
  let risk_level := s.determine_risk_level current_risk_percentage
  let recommendations :=
    (if current_risk_percentage > s.max_portfolio_risk * 100 then
      [Recommendation.reducePositionSizes] else [])
    ++ (if s.daily_pnl < -s.max_daily_loss * 0.5 then
      [Recommendation.reduceTradingActivity] else [])
    ++ (if (s.daily_trades : ℚ) > (s.max_daily_trades : ℚ) * 0.8 then
      [Recommendation.approachingDailyTradeLimit] else [])
  (s, { current_value := s.portfolio_value
        max_risk := s.max_portfolio_risk * s.portfolio_value
        current_risk := total_risk
        risk_percentage := current_risk_percentage
        stop_loss_price := 0
        max_loss := total_risk
        risk_level := risk_level
        recommendations := recommendations })

/-- `RiskManager.check_risk_limits`: collect breached limits; the portfolio
check goes through `get_portfolio_risk_metrics`, which mutates the state. -/
def RiskManager.check_risk_limits (s : RiskManager) :
    RiskManager × List Violation :=
  let v1 := if s.daily_pnl ≤ -s.max_daily_loss then
    [Violation.dailyLossBreached s.daily_pnl] else []
  let v2 := if s.daily_trades ≥ s.max_daily_trades then
    [Violation.dailyTradeBreached s.daily_trades] else []
  let (s2, portfolio_metrics) := s.get_portfolio_risk_metrics
  let v3 := if portfolio_metrics.risk_percentage > s2.max_portfolio_risk * 100 then
    [Violation.portfolioRiskBreached portfolio_metrics.risk_percentage] else []
  (s2, v1 ++ v2 ++ v3)

/-- The early-rejection `PositionRisk` built by `validate_trade` when a daily
limit is breached. -/
def rejectionRisk (symbol : String) (price : ℚ) (w : Warning) : PositionRisk :=
  { symbol := symbol
    quantity := 0
    entry_price := price
    current_price := price
    stop_loss := 0
    target_price := 0
    max_loss := 0
    risk_percentage := 0
    risk_level := RiskLevel.CRITICAL
    is_valid := false
    warnings := [w] }

/-- `RiskManager.validate_trade`: reconcile the date, apply the daily limits,
shrink the quantity to the position-size cap, derive stop loss / max loss /
risk percentage / risk level / warnings, and return the assessed trade
together with the (possibly date-reset) state. -/
def RiskManager.validate_trade (s0 : RiskManager) (today : ℕ) (symbol : String)
    (quantity0 : ℤ) (price : ℚ) (side : String) (stop_loss0 : Option ℚ) :
    RiskManager × PositionRisk :=
  let s := s0.reset_daily_metrics today
  if s.daily_trades ≥ s.max_daily_trades then
    (s, rejectionRisk symbol price Warning.dailyTradeLimitExceeded)
  else if s.daily_pnl ≤ -s.max_daily_loss then
    (s, rejectionRisk symbol price Warning.dailyLossLimitExceeded)
  else
    let position_value0 : ℚ := (quantity0 : ℚ) * price
    let quantity : ℤ :=
      if position_value0 > s.max_position_size then pyInt (s.max_position_size / price)
      else quantity0
    let position_value : ℚ := (quantity : ℚ) * price
    let stop_loss : ℚ :=
      match stop_loss0 with
      | some sl => sl
      | none =>
        if isBuy side then price * (1 - s.default_stop_loss_percent / 100)
        else price * (1 + s.default_stop_loss_percent / 100)
    let max_loss : ℚ :=
      if isBuy side then (price - stop_loss) * (quantity : ℚ)
      else (stop_loss - price) * (quantity : ℚ)
    let risk_percentage : ℚ :=
      if s.portfolio_value > 0 then max_loss / s.portfolio_value * 100 else 0
    let risk_level := s.determine_risk_level risk_percentage
    let warnings : List Warning :=
      (if risk_percentage > s.max_portfolio_risk * 100 then
        [Warning.positionRiskExceedsLimit risk_percentage (s.max_portfolio_risk * 100)]
      else [])
      ++ (if position_value > s.max_position_size * 0.8 then
        [Warning.positionSizeCloseToMax position_value s.max_position_size]
      else [])
      ++ (if max_loss > s.max_daily_loss * 0.5 then
        [Warning.potentialLossSignificant max_loss s.max_daily_loss]
      else [])
      ++ s.check_correlation_risk symbol position_value
    let is_valid : Bool := warnings.isEmpty && !(risk_level == RiskLevel.CRITICAL)
    (s, { symbol := symbol
          quantity := quantity
          entry_price := price
          current_price := price
          stop_loss := stop_loss
          target_price := price * (if isBuy side then 1.02 else 0.98)
          max_loss := max_loss
          risk_percentage := risk_percentage
          risk_level := risk_level
          is_valid := is_valid
          warnings := warnings })

/-- `RiskManager.calculate_position_size`: risk-amount sizing clamped by the
max position value and by the portfolio risk budget. -/
def RiskManager.calculate_position_size (s : RiskManager) (_symbol : String)
    (price : ℚ) (risk_amount : ℚ) (stop_loss_percent0 : Option ℚ) : ℤ :=
  let stop_loss_percent := stop_loss_percent0.getD s.default_stop_loss_percent
  let stop_loss_price := price * (1 - stop_loss_percent / 100)
  let risk_per_share := price - stop_loss_price
  if risk_per_share ≤ 0 then 0
  else
    let position_size := pyInt (risk_amount / risk_per_share)
    let max_shares := pyInt (s.max_position_size / price)
    let position_size1 := min position_size max_shares
    let max_risk_value := s.portfolio_value * s.max_portfolio_risk
    let max_risk_shares := pyInt (max_risk_value / risk_per_share)
    let position_size2 := min position_size1 max_risk_shares
    max 0 position_size2

/-- `RiskManager.calculate_stop_loss`. -/
def RiskManager.calculate_stop_loss (s : RiskManager) (entry_price : ℚ)
    (side : String) (stop_loss_percent0 : Option ℚ) : ℚ :=
  let stop_loss_percent := stop_loss_percent0.getD s.default_stop_loss_percent
  if isBuy side then entry_price * (1 - stop_loss_percent / 100)
  else entry_price * (1 + stop_loss_percent / 100)

/-- `RiskManager.calculate_trailing_stop`: trail from the current price but
never loosen past the initial stop derived from the entry price. -/
def RiskManager.calculate_trailing_stop (s : RiskManager) (entry_price : ℚ)
    (current_price : ℚ) (side : String) (trailing_percent0 : Option ℚ) : ℚ :=
  let trailing_percent := trailing_percent0.getD s.default_trailing_stop_percent
  if isBuy side then
    let trailing_stop := current_price * (1 - trailing_percent / 100)
    let initial_stop := entry_price * (1 - s.default_stop_loss_percent / 100)
    max trailing_stop initial_stop
  else
    let trailing_stop := current_price * (1 + trailing_percent / 100)
    let initial_stop := entry_price * (1 + s.default_stop_loss_percent / 100)
    min trailing_stop initial_stop

/-- Signal directions (`SignalType` enum in `base_strategy.py`). -/
inductive SignalType where
  | BUY
  | SELL
  | HOLD
  | EXIT
deriving DecidableEq, Repr

/-- Order kinds (`OrderType` enum in `base_strategy.py`). -/
inductive OrderType where
  | MARKET
  | LIMIT
  | SL
  | SL_M
deriving DecidableEq, Repr

/-- Rationale strings attached to generated signals; each constructor is one
f-string template with its interpolated numeric values. -/
inductive Reason where
  | rsiOversold (rsi : ℚ)
  | rsiOverbought (rsi : ℚ)
  | bullishRsiDivergence (strength : ℚ)
  | bearishRsiDivergence (strength : ℚ)
  | macdBullishCrossover (macd signal_value : ℚ)
  | macdBearishCrossover (macd signal_value : ℚ)
  | macdHistogramBullish (histogram momentum : ℚ)
  | macdHistogramBearish (histogram momentum : ℚ)
  | macdZeroLineBullish (macd : ℚ)
  | macdZeroLineBearish (macd : ℚ)
  | ironCondorSetup (short_call long_call short_put long_put : ℚ)
  | butterflySetup (low center high : ℚ)
  | straddleSetup (strike : ℚ)
  | strangleSetup (put_strike call_strike : ℚ)
deriving DecidableEq, Repr

/-- The `Signal` dataclass (the wall-clock creation timestamp is omitted:
it never influences the decision logic). -/
structure Signal where
  symbol : String
  signal_type : SignalType
  price : ℚ
  quantity : ℤ
  order_type : OrderType
  stop_loss : Option ℚ := none
  target_price : Option ℚ := none
  trailing_stop : Option ℚ := none
  confidence : ℚ := 1
  reason : Reason
deriving DecidableEq, Repr

/-- The `StrategyConfig` dataclass. -/
structure StrategyConfig where
  name : String
  enabled : Bool := true
  max_position_size : ℚ := 10000
  stop_loss_percent : ℚ := 2
  target_percent : ℚ := 4
  trailing_stop_percent : ℚ := 1
  risk_per_trade : ℚ := 0.02
  max_trades_per_day : ℕ := 10
  min_confidence : ℚ := 0.6
  timeframe : String := "1min"
  symbols : List String := []
deriving DecidableEq, Repr

/-- A completed-trade record as consulted by `can_trade`: only the calendar
date of its `timestamp` entry matters; a record without a timestamp defaults
to `datetime.now()`, i.e. counts as today. -/
structure TradeRecord where
  date : Option ℕ
deriving DecidableEq, Repr

/-- An open position held by a strategy (spec data model: symbol is the map
key; side, quantity, entry price). -/
structure StratPosition where
  side : String
  quantity : ℤ
  entry_price : ℚ
deriving DecidableEq, Repr

/-- Mutable state of `BaseStrategy`: configuration, enabled flag, the
per-strategy position map, and the trade history. -/
structure BaseStrategy where
  config : StrategyConfig
  enabled : Bool
  positions : List (String × StratPosition) := []
  trades : List TradeRecord := []
deriving DecidableEq, Repr

/-- `BaseStrategy.calculate_position_size`. -/
def BaseStrategy.calculate_position_size (st : BaseStrategy) (_symbol : String)
    (price : ℚ) (risk_amount : ℚ) : ℤ :=
  if st.config.stop_loss_percent ≤ 0 then 0
  else
    let stop_loss_price := price * (1 - st.config.stop_loss_percent / 100)
    let risk_per_share := price - stop_loss_price
    if risk_per_share ≤ 0 then 0
    else
      let position_size := pyInt (risk_amount / risk_per_share)
      let max_position_value := st.config.max_position_size
      let max_shares := pyInt (max_position_value / price)
      max 0 (min position_size max_shares)

/-- `BaseStrategy.calculate_stop_loss`. -/
def BaseStrategy.calculate_stop_loss (st : BaseStrategy) (entry_price : ℚ)
    (signal_type : SignalType) : ℚ :=
  if signal_type = SignalType.BUY then
    entry_price * (1 - st.config.stop_loss_percent / 100)
  else
    entry_price * (1 + st.config.stop_loss_percent / 100)

/-- `BaseStrategy.calculate_target_price`. -/
def BaseStrategy.calculate_target_price (st : BaseStrategy) (entry_price : ℚ)
    (signal_type : SignalType) : ℚ :=
  if signal_type = SignalType.BUY then
    entry_price * (1 + st.config.target_percent / 100)
  else
    entry_price * (1 - st.config.target_percent / 100)

/-- `BaseStrategy.calculate_trailing_stop`. -/
def BaseStrategy.calculate_trailing_stop (st : BaseStrategy) (entry_price : ℚ)
    (current_price : ℚ) (signal_type : SignalType) : ℚ :=
  if signal_type = SignalType.BUY then
    let trailing_stop := current_price * (1 - st.config.trailing_stop_percent / 100)
    max trailing_stop (entry_price * (1 - st.config.stop_loss_percent / 100))
  else
    let trailing_stop := current_price * (1 + st.config.trailing_stop_percent / 100)
    min trailing_stop (entry_price * (1 + st.config.stop_loss_percent / 100))

/-- `BaseStrategy.is_symbol_allowed`. -/
def BaseStrategy.is_symbol_allowed (st : BaseStrategy) (symbol : String) : Bool :=
  st.config.symbols.isEmpty || st.config.symbols.contains symbol

/-- `BaseStrategy.can_trade`: only the enabled flag and today's trade count
are consulted (the `symbol` argument is unused in the source as well). -/
def BaseStrategy.can_trade (st : BaseStrategy) (today : ℕ) (_symbol : String) : Bool :=
  if !st.enabled then false
  else
    let today_trades := st.trades.filter (fun t => t.date.getD today == today)
    if today_trades.length ≥ st.config.max_trades_per_day then false
    else true

/-- Pandas `series.iloc[-(k+1)]` on a list of closes (0 when out of range;
the source only reads in-range positions behind its length guards). -/
def ilocLast (l : List ℚ) (k : ℕ) : ℚ := l.reverse.getD k 0

/-- Last value of a peak/trough list (`lst[-(k+1)]['value']`). -/
def pairValueLast (l : List (ℕ × ℚ)) (k : ℕ) : ℚ := (l.reverse.getD k (0, 0)).2

/-- Modelled from the spec: the external exponential-weighted mean
(`ewm(..., adjust=False).mean()` of the indicator library, which is not part
of this repository): `y₀ = x₀`, `yᵢ = (1−α)·yᵢ₋₁ + α·xᵢ`. -/
def ewmFrom (alpha : ℚ) : ℚ → List ℚ → List ℚ
  | _, [] => []
  | prev, x :: xs =>
    let y := (1 - alpha) * prev + alpha * x
    y :: ewmFrom alpha y xs

/-- Modelled from the spec: exponential-weighted mean of a whole series. -/
def ewmMean (alpha : ℚ) : List ℚ → List ℚ
  | [] => []
  | x :: xs => x :: ewmFrom alpha x xs

/-- First differences of a series (`series.diff()` without the leading NaN). -/
def diffsOf (l : List ℚ) : List ℚ := (l.zip (l.drop 1)).map (fun p => p.2 - p.1)

/-- Modelled from the spec: the external RSI indicator (glossary: a bounded
0–100 momentum oscillator from average gains/losses over a lookback period,
Wilder-smoothed with `alpha = 1/window`): the series of RSI values aligned to
the price changes. -/
def rsiOf (window : ℕ) (closes : List ℚ) : List ℚ :=
  let d := diffsOf closes
  let gains := d.map (fun x => max x 0)
  let losses := d.map (fun x => max (-x) 0)
  let avg_gain := ewmMean (1 / (window : ℚ)) gains
  let avg_loss := ewmMean (1 / (window : ℚ)) losses
  (avg_gain.zip avg_loss).map (fun p => 100 - 100 / (1 + p.1 / p.2))

/-- Modelled from the spec: the external MACD line (glossary: fast EMA minus
slow EMA, EMAs with `alpha = 2/(span+1)`, `adjust=False`). -/
def macdLineOf (fast slow : ℕ) (closes : List ℚ) : List ℚ :=
  List.zipWith (fun a b => a - b)
    (ewmMean (2 / ((fast : ℚ) + 1)) closes)
    (ewmMean (2 / ((slow : ℚ) + 1)) closes)

/-- Modelled from the spec: the external MACD signal line (EMA of the line). -/
def macdSignalOf (fast slow signal_period : ℕ) (closes : List ℚ) : List ℚ :=
  ewmMean (2 / ((signal_period : ℚ) + 1)) (macdLineOf fast slow closes)

/-- Modelled from the spec: the external MACD histogram (line − signal). -/
def macdHistOf (fast slow signal_period : ℕ) (closes : List ℚ) : List ℚ :=
  List.zipWith (fun a b => a - b)
    (macdLineOf fast slow closes)
    (macdSignalOf fast slow signal_period closes)

/-- Modelled from the spec: the external local-extrema finder, as the spec
describes it (a point strictly greater than its `order` neighbors on each
side, neighbors truncated at the boundaries), returning index/value pairs. -/
def findPeaksOf (order : ℕ) (l : List ℚ) : List (ℕ × ℚ) :=
  (List.range l.length).filterMap (fun i =>
    let v := l.getD i 0
    let left := ((l.take i).reverse).take order
    let right := (l.drop (i + 1)).take order
    if (left ++ right).all (fun x => decide (x < v)) then some (i, v) else none)

/-- Modelled from the spec: local minima (`find_peaks` on the negated series,
values read back from the original series). -/
def findTroughsOf (order : ℕ) (l : List ℚ) : List (ℕ × ℚ) :=
  (List.range l.length).filterMap (fun i =>
    let v := l.getD i 0
    let left := ((l.take i).reverse).take order
    let right := (l.drop (i + 1)).take order
    if (left ++ right).all (fun x => decide (v < x)) then some (i, v) else none)

/-- State of `RSIStrategy`: base-strategy state plus the RSI parameters
(`getattr` defaults from the source). -/
structure RSIStrategy where
  base : BaseStrategy
  rsi_period : ℕ := 14
  oversold_threshold : ℚ := 30
  overbought_threshold : ℚ := 70
  rsi_exit_threshold : ℚ := 50
deriving DecidableEq, Repr

/-- `RSIStrategy.generate_signals`: guard on `rsi_period + 1` bars, then
signal on a threshold crossing of the RSI. -/
def RSIStrategy.generate_signals (st : RSIStrategy) (today : ℕ) (data : List ℚ)
    (symbol : String) : List Signal :=
  if data.length < st.rsi_period + 1 then []
  else
    let rsi_series := rsiOf st.rsi_period data
    let current_rsi := ilocLast rsi_series 0
    let prev_rsi := ilocLast rsi_series 1
    let current_price := ilocLast data 0
    if !(st.base.can_trade today symbol) then []
    else if current_rsi < st.oversold_threshold ∧ prev_rsi ≥ st.oversold_threshold then
      [{ symbol := symbol
         signal_type := SignalType.BUY
         price := current_price
         quantity := st.base.calculate_position_size symbol current_price
           (st.base.config.max_position_size * st.base.config.risk_per_trade)
         order_type := OrderType.MARKET
         stop_loss := some (st.base.calculate_stop_loss current_price SignalType.BUY)
         target_price := some (st.base.calculate_target_price current_price SignalType.BUY)
         confidence := min 1 ((st.oversold_threshold - current_rsi) / st.oversold_threshold)
         reason := Reason.rsiOversold current_rsi }]
    else if current_rsi > st.overbought_threshold ∧ prev_rsi ≤ st.overbought_threshold then
      [{ symbol := symbol
         signal_type := SignalType.SELL
         price := current_price
         quantity := st.base.calculate_position_size symbol current_price
           (st.base.config.max_position_size * st.base.config.risk_per_trade)
         order_type := OrderType.MARKET
         stop_loss := some (st.base.calculate_stop_loss current_price SignalType.SELL)
         target_price := some (st.base.calculate_target_price current_price SignalType.SELL)
         confidence := min 1 ((current_rsi - st.overbought_threshold) / (100 - st.overbought_threshold))
         reason := Reason.rsiOverbought current_rsi }]
    else []

/-- State of `RSIDivergenceStrategy`. -/
structure RSIDivergenceStrategy where
  base : BaseStrategy
  rsi_period : ℕ := 14
  lookback_period : ℕ := 20
  min_divergence_strength : ℚ := 0.1
deriving DecidableEq, Repr

/-- `RSIDivergenceStrategy.generate_signals`: guard on
`rsi_period + lookback_period` bars, then look for bullish/bearish
divergences between price and RSI extrema over the trailing window. -/
def RSIDivergenceStrategy.generate_signals (st : RSIDivergenceStrategy)
    (_today : ℕ) (data : List ℚ) (symbol : String) : List Signal :=
  if data.length < st.rsi_period + st.lookback_period then []
  else
    let rsi_series := rsiOf st.rsi_period data
    let recent_close := data.drop (data.length - st.lookback_period)
    let recent_rsi := rsi_series.drop (rsi_series.length - st.lookback_period)
    let price_peaks := findPeaksOf 3 recent_close
    let price_troughs := findTroughsOf 3 recent_close
    let rsi_peaks := findPeaksOf 3 recent_rsi
    let rsi_troughs := findTroughsOf 3 recent_rsi
    let current_price := ilocLast data 0
    let bullish : List Signal :=
      if price_troughs.length ≥ 2 ∧ rsi_troughs.length ≥ 2 then
        let latest_price_trough := pairValueLast price_troughs 0
        let prev_price_trough := pairValueLast price_troughs 1
        let latest_rsi_trough := pairValueLast rsi_troughs 0
        let prev_rsi_trough := pairValueLast rsi_troughs 1
        if latest_price_trough < prev_price_trough ∧ latest_rsi_trough > prev_rsi_trough then
          let divergence_strength := |latest_rsi_trough - prev_rsi_trough| / 100
          if divergence_strength ≥ st.min_divergence_strength then
            [{ symbol := symbol
               signal_type := SignalType.BUY
               price := current_price
               quantity := st.base.calculate_position_size symbol current_price
                 (st.base.config.max_position_size * st.base.config.risk_per_trade)
               order_type := OrderType.MARKET
               stop_loss := some (st.base.calculate_stop_loss current_price SignalType.BUY)
               target_price := some (st.base.calculate_target_price current_price SignalType.BUY)
               confidence := min 1 (divergence_strength * 2)
               reason := Reason.bullishRsiDivergence divergence_strength }]
          else []
        else []
      else []
    let bearish : List Signal :=
      if price_peaks.length ≥ 2 ∧ rsi_peaks.length ≥ 2 then
        let latest_price_peak := pairValueLast price_peaks 0
        let prev_price_peak := pairValueLast price_peaks 1
        let latest_rsi_peak := pairValueLast rsi_peaks 0
        let prev_rsi_peak := pairValueLast rsi_peaks 1
        if latest_price_peak > prev_price_peak ∧ latest_rsi_peak < prev_rsi_peak then
          let divergence_strength := |prev_rsi_peak - latest_rsi_peak| / 100
          if divergence_strength ≥ st.min_divergence_strength then
            [{ symbol := symbol
               signal_type := SignalType.SELL
               price := current_price
               quantity := st.base.calculate_position_size symbol current_price
                 (st.base.config.max_position_size * st.base.config.risk_per_trade)
               order_type := OrderType.MARKET
               stop_loss := some (st.base.calculate_stop_loss current_price SignalType.SELL)
               target_price := some (st.base.calculate_target_price current_price SignalType.SELL)
               confidence := min 1 (divergence_strength * 2)
               reason := Reason.bearishRsiDivergence divergence_strength }]
          else []
        else []
      else []
    bullish ++ bearish

/-- State of `MACDStrategy` (crossover variant). -/
structure MACDStrategy where
  base : BaseStrategy
  fast_period : ℕ := 12
  slow_period : ℕ := 26
  signal_period : ℕ := 9
  histogram_threshold : ℚ := 0
deriving DecidableEq, Repr

/-- `MACDStrategy.generate_signals`: guard on `slow_period + signal_period`
bars, then signal on a MACD line/signal crossover. -/
def MACDStrategy.generate_signals (st : MACDStrategy) (today : ℕ)
    (data : List ℚ) (symbol : String) : List Signal :=
  if data.length < st.slow_period + st.signal_period then []
  else
    let line := macdLineOf st.fast_period st.slow_period data
    let sig_line := macdSignalOf st.fast_period st.slow_period st.signal_period data
    let hist := macdHistOf st.fast_period st.slow_period st.signal_period data
    let current_macd := ilocLast line 0
    let prev_macd := ilocLast line 1
    let current_signal := ilocLast sig_line 0
    let prev_signal := ilocLast sig_line 1
    let current_histogram := ilocLast hist 0
    let current_price := ilocLast data 0
    if !(st.base.can_trade today symbol) then []
    else if prev_macd ≤ prev_signal ∧ current_macd > current_signal then
      [{ symbol := symbol
         signal_type := SignalType.BUY
         price := current_price
         quantity := st.base.calculate_position_size symbol current_price
           (st.base.config.max_position_size * st.base.config.risk_per_trade)
         order_type := OrderType.MARKET
         stop_loss := some (st.base.calculate_stop_loss current_price SignalType.BUY)
         target_price := some (st.base.calculate_target_price current_price SignalType.BUY)
         confidence := min 1 (|current_histogram| / 10)
         reason := Reason.macdBullishCrossover current_macd current_signal }]
    else if prev_macd ≥ prev_signal ∧ current_macd < current_signal then
      [{ symbol := symbol
         signal_type := SignalType.SELL
         price := current_price
         quantity := st.base.calculate_position_size symbol current_price
           (st.base.config.max_position_size * st.base.config.risk_per_trade)
         order_type := OrderType.MARKET
         stop_loss := some (st.base.calculate_stop_loss current_price SignalType.SELL)
         target_price := some (st.base.calculate_target_price current_price SignalType.SELL)
         confidence := min 1 (|current_histogram| / 10)
         reason := Reason.macdBearishCrossover current_macd current_signal }]
    else []

/-- State of `MACDHistogramStrategy`. -/
structure MACDHistogramStrategy where
  base : BaseStrategy
  fast_period : ℕ := 12
  slow_period : ℕ := 26
  signal_period : ℕ := 9
  histogram_threshold : ℚ := 0
  histogram_momentum_periods : ℕ := 3
deriving DecidableEq, Repr

/-- `MACDHistogramStrategy.generate_signals`: guard on
`slow_period + signal_period + histogram_momentum_periods` bars, then signal
on the histogram crossing its threshold band with matching momentum. -/
def MACDHistogramStrategy.generate_signals (st : MACDHistogramStrategy)
    (today : ℕ) (data : List ℚ) (symbol : String) : List Signal :=
  if data.length < st.slow_period + st.signal_period + st.histogram_momentum_periods then []
  else
    let hist := macdHistOf st.fast_period st.slow_period st.signal_period data
    let current_histogram := ilocLast hist 0
    let prev_histogram := ilocLast hist 1
    let current_price := ilocLast data 0
    let histogram_momentum :=
      if data.length ≥ st.histogram_momentum_periods + 1 then
        (current_histogram - ilocLast hist st.histogram_momentum_periods) /
          (st.histogram_momentum_periods : ℚ)
      else 0
    if !(st.base.can_trade today symbol) then []
    else if current_histogram > st.histogram_threshold ∧
        prev_histogram ≤ st.histogram_threshold ∧ histogram_momentum > 0 then
      [{ symbol := symbol
         signal_type := SignalType.BUY
         price := current_price
         quantity := st.base.calculate_position_size symbol current_price
           (st.base.config.max_position_size * st.base.config.risk_per_trade)
         order_type := OrderType.MARKET
         stop_loss := some (st.base.calculate_stop_loss current_price SignalType.BUY)
         target_price := some (st.base.calculate_target_price current_price SignalType.BUY)
         confidence := min 1 (|histogram_momentum| * 10)
         reason := Reason.macdHistogramBullish current_histogram histogram_momentum }]
    else if current_histogram < -st.histogram_threshold ∧
        prev_histogram ≥ -st.histogram_threshold ∧ histogram_momentum < 0 then
      [{ symbol := symbol
         signal_type := SignalType.SELL
         price := current_price
         quantity := st.base.calculate_position_size symbol current_price
           (st.base.config.max_position_size * st.base.config.risk_per_trade)
         order_type := OrderType.MARKET
         stop_loss := some (st.base.calculate_stop_loss current_price SignalType.SELL)
         target_price := some (st.base.calculate_target_price current_price SignalType.SELL)
         confidence := min 1 (|histogram_momentum| * 10)
         reason := Reason.macdHistogramBearish current_histogram histogram_momentum }]
    else []

/-- State of `MACDZeroLineStrategy`. -/
structure MACDZeroLineStrategy where
  base : BaseStrategy
  fast_period : ℕ := 12
  slow_period : ℕ := 26
  signal_period : ℕ := 9
deriving DecidableEq, Repr

/-- `MACDZeroLineStrategy.generate_signals`: guard on
`slow_period + signal_period` bars, then signal on the MACD line crossing
the zero line. -/
def MACDZeroLineStrategy.generate_signals (st : MACDZeroLineStrategy)
    (today : ℕ) (data : List ℚ) (symbol : String) : List Signal :=
  if data.length < st.slow_period + st.signal_period then []
  else
    let line := macdLineOf st.fast_period st.slow_period data
    let current_macd := ilocLast line 0
    let prev_macd := ilocLast line 1
    let current_price := ilocLast data 0
    if !(st.base.can_trade today symbol) then []
    else if prev_macd ≤ 0 ∧ current_macd > 0 then
      [{ symbol := symbol
         signal_type := SignalType.BUY
         price := current_price
         quantity := st.base.calculate_position_size symbol current_price
           (st.base.config.max_position_size * st.base.config.risk_per_trade)
         order_type := OrderType.MARKET
         stop_loss := some (st.base.calculate_stop_loss current_price SignalType.BUY)
         target_price := some (st.base.calculate_target_price current_price SignalType.BUY)
         confidence := min 1 (|current_macd| * 100)
         reason := Reason.macdZeroLineBullish current_macd }]
    else if prev_macd ≥ 0 ∧ current_macd < 0 then
      [{ symbol := symbol
         signal_type := SignalType.SELL
         price := current_price
         quantity := st.base.calculate_position_size symbol current_price
           (st.base.config.max_position_size * st.base.config.risk_per_trade)
         order_type := OrderType.MARKET
         stop_loss := some (st.base.calculate_stop_loss current_price SignalType.SELL)
         target_price := some (st.base.calculate_target_price current_price SignalType.SELL)
         confidence := min 1 (|current_macd| * 100)
         reason := Reason.macdZeroLineBearish current_macd }]
    else []

/-- Per-bar fractional returns (`series.pct_change()` without the leading
NaN): `(xᵢ₊₁ − xᵢ)/xᵢ`. -/
def pctChange (l : List ℚ) : List ℚ := (l.zip (l.drop 1)).map (fun p => (p.2 - p.1) / p.1)

/-- Sample variance with one degree of freedom (pandas `std()` squared). -/
def sampleVar (l : List ℚ) : ℚ :=
  let m := (l.length : ℚ)
  let mean := l.sum / m
  (l.map (fun x => (x - mean) ^ 2)).sum / (m - 1)

/-- Square of the annualized realized volatility
(`pct_change().std() * sqrt(252)` squared).  The source compares the
volatility itself against non-negative band bounds; since the volatility is
a non-negative square root, every such comparison is encoded here on the
squares, which is exactly equivalent and keeps the embedding inside `ℚ`. -/
def annualizedVolSq (closes : List ℚ) : ℚ := sampleVar (pctChange closes) * 252

/-- State of `IronCondorStrategy` (strike fields default to 0 = unset). -/
structure IronCondorStrategy where
  base : BaseStrategy
  short_call_strike : ℚ := 0
  long_call_strike : ℚ := 0
  short_put_strike : ℚ := 0
  long_put_strike : ℚ := 0
  expiration_days : ℕ := 30
  quantity : ℤ := 1
deriving DecidableEq, Repr

/-- `IronCondorStrategy._should_setup_iron_condor`:
`0.15 < volatility < 0.35` (encoded on squares) and price strictly between
the long put and the short call. -/
def IronCondorStrategy.should_setup_iron_condor (st : IronCondorStrategy)
    (current_price vol_sq : ℚ) : Bool :=
  decide (0.0225 < vol_sq ∧ vol_sq < 0.1225 ∧
    st.long_put_strike < current_price ∧ current_price < st.short_call_strike)

/-- `IronCondorStrategy.generate_signals`: guard on 20 bars, derive strikes
from the spot on first use, then emit a setup signal in the volatility band. -/
def IronCondorStrategy.generate_signals (st0 : IronCondorStrategy) (today : ℕ)
    (data : List ℚ) (symbol : String) : IronCondorStrategy × List Signal :=
  if data.length < 20 then (st0, [])
  else
    let current_price := ilocLast data 0
    let vol_sq := annualizedVolSq data
    let st :=
      if st0.short_call_strike = 0 then
        { st0 with short_call_strike := current_price * 1.02
                   long_call_strike := current_price * 1.05
                   short_put_strike := current_price * 0.98
                   long_put_strike := current_price * 0.95 }
      else st0
    if !(st.base.can_trade today symbol) then (st, [])
    else if st.should_setup_iron_condor current_price vol_sq then
      (st, [{ symbol := symbol
              signal_type := SignalType.BUY
              price := current_price
              quantity := st.quantity
              order_type := OrderType.MARKET
              stop_loss := some (current_price * 0.95)
              target_price := some (current_price * 1.05)
              confidence := 0.8
              reason := Reason.ironCondorSetup st.short_call_strike
                st.long_call_strike st.short_put_strike st.long_put_strike }])
    else (st, [])

/-- State of `ButterflyStrategy`. -/
structure ButterflyStrategy where
  base : BaseStrategy
  center_strike : ℚ := 0
  wing_strikes : ℚ := 0
  expiration_days : ℕ := 30
  quantity : ℤ := 1
deriving DecidableEq, Repr

/-- `ButterflyStrategy._should_setup_butterfly`: `volatility < 0.25`
(encoded on squares) and price within 2% of the center strike. -/
def ButterflyStrategy.should_setup_butterfly (st : ButterflyStrategy)
    (current_price vol_sq : ℚ) : Bool :=
  decide (vol_sq < 0.0625 ∧ |current_price - st.center_strike| / current_price < 0.02)

/-- `ButterflyStrategy.generate_signals`. -/
def ButterflyStrategy.generate_signals (st0 : ButterflyStrategy) (today : ℕ)
    (data : List ℚ) (symbol : String) : ButterflyStrategy × List Signal :=
  if data.length < 20 then (st0, [])
  else
    let current_price := ilocLast data 0
    let vol_sq := annualizedVolSq data
    let st :=
      if st0.center_strike = 0 then
        { st0 with center_strike := current_price
                   wing_strikes := current_price * 0.05 }
      else st0
    if !(st.base.can_trade today symbol) then (st, [])
    else if st.should_setup_butterfly current_price vol_sq then
      (st, [{ symbol := symbol
              signal_type := SignalType.BUY
              price := current_price
              quantity := st.quantity
              order_type := OrderType.MARKET
              stop_loss := some (current_price * 0.95)
              target_price := some (current_price * 1.05)
              confidence := 0.75
              reason := Reason.butterflySetup (st.center_strike - st.wing_strikes)
                st.center_strike (st.center_strike + st.wing_strikes) }])
    else (st, [])

/-- State of `StraddleStrategy`. -/
structure StraddleStrategy where
  base : BaseStrategy
  strike_price : ℚ := 0
  expiration_days : ℕ := 30
  quantity : ℤ := 1
deriving DecidableEq, Repr

/-- `StraddleStrategy._should_setup_straddle`: `volatility > 0.3` (encoded on
squares) and price within 1% of the strike. -/
def StraddleStrategy.should_setup_straddle (st : StraddleStrategy)
    (current_price vol_sq : ℚ) : Bool :=
  decide (vol_sq > 0.09 ∧ |current_price - st.strike_price| / current_price < 0.01)

/-- `StraddleStrategy.generate_signals`. -/
def StraddleStrategy.generate_signals (st0 : StraddleStrategy) (today : ℕ)
    (data : List ℚ) (symbol : String) : StraddleStrategy × List Signal :=
  if data.length < 20 then (st0, [])
  else
    let current_price := ilocLast data 0
    let vol_sq := annualizedVolSq data
    let st :=
      if st0.strike_price = 0 then { st0 with strike_price := current_price }
      else st0
    if !(st.base.can_trade today symbol) then (st, [])
    else if st.should_setup_straddle current_price vol_sq then
      (st, [{ symbol := symbol
              signal_type := SignalType.BUY
              price := current_price
              quantity := st.quantity
              order_type := OrderType.MARKET
              stop_loss := some (current_price * 0.90)
              target_price := some (current_price * 1.10)
              confidence := 0.7
              reason := Reason.straddleSetup st.strike_price }])
    else (st, [])

/-- State of `StrangleStrategy`. -/
structure StrangleStrategy where
  base : BaseStrategy
  call_strike : ℚ := 0
  put_strike : ℚ := 0
  expiration_days : ℕ := 30
  quantity : ℤ := 1
deriving DecidableEq, Repr

/-- `StrangleStrategy._should_setup_strangle`: `volatility > 0.25` (encoded
on squares) and price strictly between the put and call strikes. -/
def StrangleStrategy.should_setup_strangle (st : StrangleStrategy)
    (current_price vol_sq : ℚ) : Bool :=
  decide (vol_sq > 0.0625 ∧
    st.put_strike < current_price ∧ current_price < st.call_strike)

/-- `StrangleStrategy.generate_signals`. -/
def StrangleStrategy.generate_signals (st0 : StrangleStrategy) (today : ℕ)
    (data : List ℚ) (symbol : String) : StrangleStrategy × List Signal :=
  if data.length < 20 then (st0, [])
  else
    let current_price := ilocLast data 0
    let vol_sq := annualizedVolSq data
    let st :=
      if st0.call_strike = 0 then
        { st0 with call_strike := current_price * 1.05
                   put_strike := current_price * 0.95 }
      else st0
    if !(st.base.can_trade today symbol) then (st, [])
    else if st.should_setup_strangle current_price vol_sq then
      (st, [{ symbol := symbol
              signal_type := SignalType.BUY
              price := current_price
              quantity := st.quantity
              order_type := OrderType.MARKET
              stop_loss := some (current_price * 0.90)
              target_price := some (current_price * 1.10)
              confidence := 0.65
              reason := Reason.strangleSetup st.put_strike st.call_strike }])
    else (st, [])

/-- An options leg (`OptionsLeg` dataclass); the expiration date is an
abstract day token. -/
structure OptionsLeg where
  option_type : String
  strike_price : ℚ
  quantity : ℤ
  action : String
  expiration_date : ℕ
  premium : ℚ := 0
deriving DecidableEq, Repr

/-- An options strategy definition (`OptionsStrategy` dataclass); the
strategy type tag is kept as its string value. -/
structure OptionsStrategy where
  name : String
  strategy_type : String
  legs : List OptionsLeg
  max_profit : ℚ
  max_loss : ℚ
  breakeven_points : List ℚ
  risk_reward : ℚ
  probability_of_profit : ℚ
  days_to_expiration : ℕ
  implied_volatility : ℚ
  delta : ℚ
  gamma : ℚ
  theta : ℚ
  vega : ℚ
deriving DecidableEq, Repr

/-- Loop body of `calculate_strategy_payoff`: the intrinsic value of one leg
at the given spot (`CALL` vs anything else = `PUT`), added to the running
total for a `BUY` action and subtracted otherwise. -/
def legPayoffStep (stock_price : ℚ) (total_payoff : ℚ) (leg : OptionsLeg) : ℚ :=
  let payoff : ℚ :=
    if leg.option_type == "CALL" then
      if stock_price > leg.strike_price then
        (stock_price - leg.strike_price) * (leg.quantity : ℚ)
      else 0
    else
      if stock_price < leg.strike_price then
        (leg.strike_price - stock_price) * (leg.quantity : ℚ)
      else 0
  if leg.action == "BUY" then total_payoff + payoff else total_payoff - payoff

/-- `OptionsStrategyManager.calculate_strategy_payoff`: leg-by-leg intrinsic
value at the given spot, signed by the leg action, accumulated in order. -/
def calculate_strategy_payoff (strategy : OptionsStrategy) (stock_price : ℚ) : ℚ :=
  strategy.legs.foldl (legPayoffStep stock_price) 0

/-- The spec's validation scenario: a risk manager with the default settings
of `config.py` (2% portfolio risk, 100,000 max position, 5,000 max daily
loss, 50 max daily trades, 30% correlation cap, 2% default stop, 1% default
trailing stop), portfolio value 100,000, no tracked positions, and the given
daily counters and reset date. -/
def rmScenario (dt : ℕ) (pnl : ℚ) (d0 : ℕ) : RiskManager :=
  { max_portfolio_risk := 0.02
    max_position_size := 100000
    max_daily_loss := 5000
    max_daily_trades := 50
    max_correlation_risk := 0.3
    default_stop_loss_percent := 2
    default_trailing_stop_percent := 1
    daily_trades := dt
    daily_pnl := pnl
    daily_reset_date := d0
    portfolio_value := 100000
    positions := [] }

/-- An enabled strategy with default configuration that already holds an open
position in symbol `"XYZ"` and has made no trades today. -/
def stHolding : BaseStrategy :=
  { config := { name := "rsi" }
    enabled := true
    positions := [("XYZ", { side := "LONG", quantity := 10, entry_price := 100 })]
    trades := [] }

/-- An enabled strategy with default configuration and empty state. -/
def stPlain : BaseStrategy :=
  { config := { name := "w" }
    enabled := true }

/-- Concrete strategy instances with default parameters, used to evaluate the
insufficient-history guards on empty data. -/
def rsiW : RSIStrategy := { base := stPlain }

/-- Concrete RSI-divergence strategy with default parameters. -/
def rsiDivW : RSIDivergenceStrategy := { base := stPlain }

/-- Concrete MACD crossover strategy with default parameters. -/
def macdW : MACDStrategy := { base := stPlain }

/-- Concrete MACD histogram strategy with default parameters. -/
def macdHistW : MACDHistogramStrategy := { base := stPlain }

/-- Concrete MACD zero-line strategy with default parameters. -/
def macdZeroW : MACDZeroLineStrategy := { base := stPlain }

/-- Concrete Iron Condor strategy with default parameters. -/
def icW : IronCondorStrategy := { base := stPlain }

/-- Concrete Butterfly strategy with default parameters. -/
def bfW : ButterflyStrategy := { base := stPlain }

/-- Concrete Straddle strategy with default parameters. -/
def sdW : StraddleStrategy := { base := stPlain }

/-- Concrete Strangle strategy with default parameters. -/
def sgW : StrangleStrategy := { base := stPlain }

/-- C9: the daily-reset reconciliation is idempotent within a calendar date:
when the stored reset date already equals today, running it again leaves the
whole state (in particular the daily trade count, the daily P&L, and the
reset date) unchanged. -/
theorem reset_daily_metrics_idempotent_same_day (rm : RiskManager) (today : ℕ)
    (h : rm.daily_reset_date = today) : rm.reset_daily_metrics today = rm := by
  unfold RiskManager.reset_daily_metrics
  rw [if_neg]
  simp [h]

/-- C9 witness: the idempotence theorem applied to a concrete state whose
reset date is today. -/
theorem reset_daily_metrics_idempotent_same_day_witness :
    (rmScenario 3 100 7).daily_reset_date = 7 ∧
      (rmScenario 3 100 7).reset_daily_metrics 7 = rmScenario 3 100 7 :=
  ⟨rfl, reset_daily_metrics_idempotent_same_day (rmScenario 3 100 7) 7 rfl⟩

/-- C4: whenever the daily trade count is at or above the configured maximum
after date reconciliation, `validate_trade` returns quantity 0, risk level
CRITICAL, invalid, with the single warning "Daily trade limit exceeded",
for every symbol, quantity, price, side and optional stop loss. -/
theorem validate_trade_daily_limit (rm : RiskManager) (today : ℕ)
    (symbol : String) (quantity : ℤ) (price : ℚ) (side : String)
    (sl : Option ℚ)
    (h : (rm.reset_daily_metrics today).daily_trades ≥
      (rm.reset_daily_metrics today).max_daily_trades) :
    (rm.validate_trade today symbol quantity price side sl).2.quantity = 0 ∧
    (rm.validate_trade today symbol quantity price side sl).2.risk_level = RiskLevel.CRITICAL ∧
    (rm.validate_trade today symbol quantity price side sl).2.is_valid = false ∧
    (rm.validate_trade today symbol quantity price side sl).2.warnings =
      [Warning.dailyTradeLimitExceeded] := by
  simp only [RiskManager.validate_trade]
  rw [if_pos h]
  simp [rejectionRisk]

/-- C4 witness: the daily-limit rejection at a concrete state already at 50
trades on the current date. -/
theorem validate_trade_daily_limit_witness :
    ((rmScenario 50 0 0).reset_daily_metrics 0).daily_trades ≥
      ((rmScenario 50 0 0).reset_daily_metrics 0).max_daily_trades ∧
    (((rmScenario 50 0 0).validate_trade 0 "XYZ" 10 100 "BUY" none).2.quantity = 0 ∧
     ((rmScenario 50 0 0).validate_trade 0 "XYZ" 10 100 "BUY" none).2.risk_level = RiskLevel.CRITICAL ∧
     ((rmScenario 50 0 0).validate_trade 0 "XYZ" 10 100 "BUY" none).2.is_valid = false ∧
     ((rmScenario 50 0 0).validate_trade 0 "XYZ" 10 100 "BUY" none).2.warnings =
       [Warning.dailyTradeLimitExceeded]) :=
  ⟨by decide,
   validate_trade_daily_limit (rmScenario 50 0 0) 0 "XYZ" 10 100 "BUY" none (by decide)⟩

/-- C10: on every execution of `validate_trade` that passes the
daily-trade-limit and daily-loss-limit checks, the returned target price is
`price * 1.02` for the BUY side and `price * 0.98` otherwise, independent of
any configured target percentage and of the supplied stop loss. -/
theorem validate_trade_fixed_target (rm : RiskManager) (today : ℕ)
    (symbol : String) (quantity : ℤ) (price : ℚ) (side : String)
    (sl : Option ℚ)
    (h1 : ¬ (rm.reset_daily_metrics today).daily_trades ≥
      (rm.reset_daily_metrics today).max_daily_trades)
    (h2 : ¬ (rm.reset_daily_metrics today).daily_pnl ≤
      -(rm.reset_daily_metrics today).max_daily_loss) :
    (rm.validate_trade today symbol quantity price side sl).2.target_price =
      price * (if isBuy side then 1.02 else 0.98) := by
  simp only [RiskManager.validate_trade]
  rw [if_neg h1, if_neg h2]

/-- C10 witness: the fixed-target theorem applied on the SELL side at a
concrete state that passes both daily checks. -/
theorem validate_trade_fixed_target_witness :
    ¬ ((rmScenario 0 0 0).reset_daily_metrics 0).daily_trades ≥
      ((rmScenario 0 0 0).reset_daily_metrics 0).max_daily_trades ∧
    ¬ ((rmScenario 0 0 0).reset_daily_metrics 0).daily_pnl ≤
      -((rmScenario 0 0 0).reset_daily_metrics 0).max_daily_loss ∧
    ((rmScenario 0 0 0).validate_trade 0 "INFY" 10 100 "SELL" (some 95)).2.target_price =
      100 * (if isBuy "SELL" then 1.02 else 0.98) :=
  ⟨by decide, by decide,
   validate_trade_fixed_target (rmScenario 0 0 0) 0 "INFY" 10 100 "SELL" (some 95)
     (by decide) (by decide)⟩

/-- C6: the trailing-stop computations (both the strategy helper and the risk
manager helper) never loosen past the original stop derived from the entry
price: for BUY the result is at least `entry * (1 - stop_pct/100)`, for SELL
at most `entry * (1 + stop_pct/100)`, for every entry price, current price,
trailing percentage and stop-loss percentage. -/
theorem trailing_stop_never_loosens :
    (∀ (st : BaseStrategy) (entry current : ℚ),
      entry * (1 - st.config.stop_loss_percent / 100) ≤
        st.calculate_trailing_stop entry current SignalType.BUY) ∧
    (∀ (st : BaseStrategy) (entry current : ℚ),
      st.calculate_trailing_stop entry current SignalType.SELL ≤
        entry * (1 + st.config.stop_loss_percent / 100)) ∧
    (∀ (s : RiskManager) (entry current : ℚ) (tp : Option ℚ),
      entry * (1 - s.default_stop_loss_percent / 100) ≤
        s.calculate_trailing_stop entry current "BUY" tp) ∧
    (∀ (s : RiskManager) (entry current : ℚ) (tp : Option ℚ),
      s.calculate_trailing_stop entry current "SELL" tp ≤
        entry * (1 + s.default_stop_loss_percent / 100)) := by
  have hb : isBuy "BUY" = true := by decide
  have hs : isBuy "SELL" = false := by decide
  refine ⟨?_, ?_, ?_, ?_⟩
  · intro st entry current
    simp [BaseStrategy.calculate_trailing_stop]
  · intro st entry current
    simp [BaseStrategy.calculate_trailing_stop]
  · intro s entry current tp
    simp [RiskManager.calculate_trailing_stop, hb]
  · intro s entry current tp
    simp [RiskManager.calculate_trailing_stop, hs]

/-- C7: for every strategy variant, when the price series has fewer bars
than the variant's minimum lookback (`rsi_period + 1` for RSI-threshold,
`rsi_period + lookback_period` for RSI-divergence,
`slow_period + signal_period` for the MACD crossover and zero-line variants,
additionally plus the momentum window for the histogram variant, and the
fixed window of 20 bars for the options setups), `generate_signals` returns
the empty list (the options variants additionally leave their state
unchanged) and, being a total function, does not fail. -/
theorem generate_signals_insufficient_history (today : ℕ) (symbol : String)
    (data : List ℚ) :
    (∀ st : RSIStrategy, data.length < st.rsi_period + 1 →
      st.generate_signals today data symbol = []) ∧
    (∀ st : RSIDivergenceStrategy, data.length < st.rsi_period + st.lookback_period →
      st.generate_signals today data symbol = []) ∧
    (∀ st : MACDStrategy, data.length < st.slow_period + st.signal_period →
      st.generate_signals today data symbol = []) ∧
    (∀ st : MACDHistogramStrategy,
      data.length < st.slow_period + st.signal_period + st.histogram_momentum_periods →
      st.generate_signals today data symbol = []) ∧
    (∀ st : MACDZeroLineStrategy, data.length < st.slow_period + st.signal_period →
      st.generate_signals today data symbol = []) ∧
    (∀ st : IronCondorStrategy, data.length < 20 →
      st.generate_signals today data symbol = (st, [])) ∧
    (∀ st : ButterflyStrategy, data.length < 20 →
      st.generate_signals today data symbol = (st, [])) ∧
    (∀ st : StraddleStrategy, data.length < 20 →
      st.generate_signals today data symbol = (st, [])) ∧
    (∀ st : StrangleStrategy, data.length < 20 →
      st.generate_signals today data symbol = (st, [])) := by
  refine ⟨?_, ?_, ?_, ?_, ?_, ?_, ?_, ?_, ?_⟩ <;> intro st h
  · simp only [RSIStrategy.generate_signals]
    rw [if_pos h]
  · simp only [RSIDivergenceStrategy.generate_signals]
    rw [if_pos h]
  · simp only [MACDStrategy.generate_signals]
    rw [if_pos h]
  · simp only [MACDHistogramStrategy.generate_signals]
    rw [if_pos h]
  · simp only [MACDZeroLineStrategy.generate_signals]
    rw [if_pos h]
  · simp only [IronCondorStrategy.generate_signals]
    rw [if_pos h]
  · simp only [ButterflyStrategy.generate_signals]
    rw [if_pos h]
  · simp only [StraddleStrategy.generate_signals]
    rw [if_pos h]
  · simp only [StrangleStrategy.generate_signals]
    rw [if_pos h]

/-- C7 witness: the insufficient-history theorem applied to every concrete
default-parameter strategy instance on an empty price series. -/
theorem generate_signals_insufficient_history_witness :
    ([] : List ℚ).length < rsiW.rsi_period + 1 ∧
    ([] : List ℚ).length < 20 ∧
    rsiW.generate_signals 0 [] "X" = [] ∧
    rsiDivW.generate_signals 0 [] "X" = [] ∧
    macdW.generate_signals 0 [] "X" = [] ∧
    macdHistW.generate_signals 0 [] "X" = [] ∧
    macdZeroW.generate_signals 0 [] "X" = [] ∧
    icW.generate_signals 0 [] "X" = (icW, []) ∧
    bfW.generate_signals 0 [] "X" = (bfW, []) ∧
    sdW.generate_signals 0 [] "X" = (sdW, []) ∧
    sgW.generate_signals 0 [] "X" = (sgW, []) :=
  ⟨by decide, by decide,
   (generate_signals_insufficient_history 0 "X" []).1 rsiW (by decide),
   (generate_signals_insufficient_history 0 "X" []).2.1 rsiDivW (by decide),
   (generate_signals_insufficient_history 0 "X" []).2.2.1 macdW (by decide),
   (generate_signals_insufficient_history 0 "X" []).2.2.2.1 macdHistW (by decide),
   (generate_signals_insufficient_history 0 "X" []).2.2.2.2.1 macdZeroW (by decide),
   (generate_signals_insufficient_history 0 "X" []).2.2.2.2.2.1 icW (by decide),
   (generate_signals_insufficient_history 0 "X" []).2.2.2.2.2.2.1 bfW (by decide),
   (generate_signals_insufficient_history 0 "X" []).2.2.2.2.2.2.2.1 sdW (by decide),
   (generate_signals_insufficient_history 0 "X" []).2.2.2.2.2.2.2.2 sgW (by decide)⟩

/-- One leg of the payoff loop equals the claimed signed intrinsic value
added to the running total. -/
theorem legPayoffStep_eq (stock_price a : ℚ) (leg : OptionsLeg) :
    legPayoffStep stock_price a leg =
      a + (if leg.action == "BUY" then (1 : ℚ) else -1) * (leg.quantity : ℚ) *
        (if leg.option_type == "CALL" then max (stock_price - leg.strike_price) 0
         else max (leg.strike_price - stock_price) 0) := by
  unfold legPayoffStep
  split_ifs <;>
    first
      | (rw [max_eq_left (by linarith)]; ring)
      | (rw [max_eq_right (by linarith)]; ring)

/-- The payoff fold with an arbitrary accumulator is the accumulator plus the
signed intrinsic-value sum. -/
theorem legPayoffStep_foldl (stock_price : ℚ) (legs : List OptionsLeg) :
    ∀ a : ℚ, legs.foldl (legPayoffStep stock_price) a =
      a + (legs.map (fun leg =>
        (if leg.action == "BUY" then (1 : ℚ) else -1) * (leg.quantity : ℚ) *
          (if leg.option_type == "CALL" then max (stock_price - leg.strike_price) 0
           else max (leg.strike_price - stock_price) 0))).sum := by
  induction legs with
  | nil => intro a; simp
  | cons leg rest ih =>
    intro a
    simp only [List.foldl_cons, List.map_cons, List.sum_cons]
    rw [ih, legPayoffStep_eq]
    ring

/-- C8: for every options strategy definition and spot price,
`calculate_strategy_payoff` is exactly the sum over the legs of
sign · quantity · intrinsic value, where the intrinsic value is
`max(spot − strike, 0)` for a CALL leg and `max(strike − spot, 0)` for a PUT
leg, and the sign is + for a BUY action and − otherwise. -/
theorem calculate_strategy_payoff_eq_sum (strategy : OptionsStrategy)
    (stock_price : ℚ) :
    calculate_strategy_payoff strategy stock_price =
      (strategy.legs.map (fun leg =>
        (if leg.action == "BUY" then (1 : ℚ) else -1) * (leg.quantity : ℚ) *
          (if leg.option_type == "CALL" then max (stock_price - leg.strike_price) 0
           else max (leg.strike_price - stock_price) 0))).sum := by
  unfold calculate_strategy_payoff
  rw [legPayoffStep_foldl]
  ring

/-- C5: both position-sizing computations (the strategy helper and the risk
manager helper) return an integer `n` with
`0 ≤ n ≤ ⌊max_position_value / price⌋` for every price > 0, every risk
amount, and every configuration with a non-negative max position value; and
they return exactly 0 whenever the risk per unit (price minus the derived
stop-loss price) is non-positive — in particular whenever the stop-loss
percentage in force is ≤ 0 — so the division by the risk per unit is never
performed on a non-positive divisor. -/
theorem calculate_position_size_bounds :
    (∀ (st : BaseStrategy) (symbol : String) (price risk_amount : ℚ),
      0 < price → 0 ≤ st.config.max_position_size →
        0 ≤ st.calculate_position_size symbol price risk_amount ∧
        st.calculate_position_size symbol price risk_amount ≤
          ⌊st.config.max_position_size / price⌋ ∧
        (price - price * (1 - st.config.stop_loss_percent / 100) ≤ 0 →
          st.calculate_position_size symbol price risk_amount = 0) ∧
        (st.config.stop_loss_percent ≤ 0 →
          st.calculate_position_size symbol price risk_amount = 0)) ∧
    (∀ (s : RiskManager) (symbol : String) (price risk_amount : ℚ)
        (slp0 : Option ℚ),
      0 < price → 0 ≤ s.max_position_size →
        0 ≤ s.calculate_position_size symbol price risk_amount slp0 ∧
        s.calculate_position_size symbol price risk_amount slp0 ≤
          ⌊s.max_position_size / price⌋ ∧
        (price - price * (1 - slp0.getD s.default_stop_loss_percent / 100) ≤ 0 →
          s.calculate_position_size symbol price risk_amount slp0 = 0) ∧
        (slp0.getD s.default_stop_loss_percent ≤ 0 →
          s.calculate_position_size symbol price risk_amount slp0 = 0)) := by
  constructor
  · intro st symbol price risk_amount hp hmax
    have hfloor0 : (0 : ℤ) ≤ ⌊st.config.max_position_size / price⌋ :=
      Int.floor_nonneg.mpr (div_nonneg hmax hp.le)
    have hpy : pyInt (st.config.max_position_size / price) =
        ⌊st.config.max_position_size / price⌋ := by
      rw [pyInt, if_pos (div_nonneg hmax hp.le)]
    simp only [BaseStrategy.calculate_position_size]
    by_cases h0 : st.config.stop_loss_percent ≤ 0
    · rw [if_pos h0]
      exact ⟨le_refl 0, hfloor0, fun _ => rfl, fun _ => rfl⟩
    · rw [if_neg h0]
      push_neg at h0
      have hrps : 0 < price - price * (1 - st.config.stop_loss_percent / 100) := by
        have heq : price - price * (1 - st.config.stop_loss_percent / 100) =
            price * st.config.stop_loss_percent / 100 := by ring
        rw [heq]
        positivity
      rw [if_neg (not_le.mpr hrps)]
      refine ⟨le_max_left 0 _, ?_, ?_, ?_⟩
      · rw [← hpy] at hfloor0 ⊢
        exact max_le hfloor0 (min_le_right _ _)
      · intro hcon
        exact absurd hrps (not_lt.mpr hcon)
      · intro hcon
        exact absurd hcon (not_le.mpr h0)
  · intro s symbol price risk_amount slp0 hp hmax
    have hfloor0 : (0 : ℤ) ≤ ⌊s.max_position_size / price⌋ :=
      Int.floor_nonneg.mpr (div_nonneg hmax hp.le)
    have hpy : pyInt (s.max_position_size / price) =
        ⌊s.max_position_size / price⌋ := by
      rw [pyInt, if_pos (div_nonneg hmax hp.le)]
    simp only [RiskManager.calculate_position_size]
    by_cases h0 : price - price * (1 - slp0.getD s.default_stop_loss_percent / 100) ≤ 0
    · rw [if_pos h0]
      refine ⟨le_refl 0, hfloor0, fun _ => rfl, fun _ => rfl⟩
    · rw [if_neg h0]
      push_neg at h0
      refine ⟨le_max_left 0 _, ?_, ?_, ?_⟩
      · rw [← hpy] at hfloor0 ⊢
        exact max_le hfloor0 ((min_le_left _ _).trans (min_le_right _ _))
      · intro hcon
        exact absurd h0 (not_lt.mpr hcon)
      · intro hslp
        exfalso
        have heq : price - price * (1 - slp0.getD s.default_stop_loss_percent / 100) =
            price * slp0.getD s.default_stop_loss_percent / 100 := by ring
        rw [heq] at h0
        nlinarith [mul_nonneg hp.le (neg_nonneg.mpr hslp)]

/-- C5 witness: the bounds theorem applied to a concrete default-parameter
strategy and risk manager at price 100 and risk amount 500. -/
theorem calculate_position_size_bounds_witness :
    (0 : ℚ) < 100 ∧ (0 : ℚ) ≤ stPlain.config.max_position_size ∧
    (0 : ℚ) ≤ (rmScenario 0 0 0).max_position_size ∧
    (0 ≤ stPlain.calculate_position_size "X" 100 500 ∧
      stPlain.calculate_position_size "X" 100 500 ≤
        ⌊stPlain.config.max_position_size / 100⌋ ∧
      (100 - 100 * (1 - stPlain.config.stop_loss_percent / 100) ≤ 0 →
        stPlain.calculate_position_size "X" 100 500 = 0) ∧
      (stPlain.config.stop_loss_percent ≤ 0 →
        stPlain.calculate_position_size "X" 100 500 = 0)) ∧
    (0 ≤ (rmScenario 0 0 0).calculate_position_size "X" 100 500 none ∧
      (rmScenario 0 0 0).calculate_position_size "X" 100 500 none ≤
        ⌊(rmScenario 0 0 0).max_position_size / 100⌋ ∧
      (100 - 100 * (1 - (none : Option ℚ).getD (rmScenario 0 0 0).default_stop_loss_percent / 100) ≤ 0 →
        (rmScenario 0 0 0).calculate_position_size "X" 100 500 none = 0) ∧
      ((none : Option ℚ).getD (rmScenario 0 0 0).default_stop_loss_percent ≤ 0 →
        (rmScenario 0 0 0).calculate_position_size "X" 100 500 none = 0)) :=
  ⟨by norm_num, by decide, by decide,
   calculate_position_size_bounds.1 stPlain "X" 100 500 (by norm_num) (by decide),
   calculate_position_size_bounds.2 (rmScenario 0 0 0) "X" 100 500 none
     (by norm_num) (by decide)⟩

/-- C2 counterexample: an enabled strategy that already holds an open
position in symbol "XYZ" (and has made no trades today) still returns true
from `can_trade "XYZ"`, refuting the claim that `can_trade` is false
whenever the strategy's position map contains an open position for the
symbol. -/
theorem can_trade_ignores_positions_counterexample :
    (stHolding.positions.map Prod.fst).contains "XYZ" = true ∧
      stHolding.can_trade 0 "XYZ" = true := by
  constructor
  · decide
  · decide

/-- C2 (amended): `can_trade(symbol)` returns false exactly when the
strategy is disabled or today's trade count (by calendar date, a record
without a timestamp counting as today) is at or above the configured
per-day cap; the position map (and any open-position maximum, which is not
part of the configuration) is never consulted. -/
theorem can_trade_false_iff (st : BaseStrategy) (today : ℕ) (symbol : String) :
    st.can_trade today symbol = false ↔
      (st.enabled = false ∨
        (st.trades.filter (fun t => t.date.getD today == today)).length ≥
          st.config.max_trades_per_day) := by
  unfold BaseStrategy.can_trade
  cases he : st.enabled
  · simp
  · simp only [Bool.not_true, Bool.false_eq_true, if_false]
    by_cases hc : (st.trades.filter (fun t => t.date.getD today == today)).length ≥
        st.config.max_trades_per_day
    · simp [hc]
    · simp [hc]

/-- C3 counterexample: on a risk manager whose stored portfolio value is
100,000 while it tracks no positions, `check_risk_limits` changes the
portfolio-value field (to 0, the sum of tracked position values), refuting
the claim that it leaves every state field unchanged. -/
theorem check_risk_limits_mutates_counterexample :
    ((rmScenario 0 0 0).check_risk_limits).1.portfolio_value ≠
      (rmScenario 0 0 0).portfolio_value := by
  decide

/-- C3 (amended): `check_risk_limits` returns the list of breached limits
and leaves the configured limits, the daily counters, the reset date and
the position map unchanged, but it overwrites the portfolio value with the
sum of tracked position values (a side effect inherited from
`get_portfolio_risk_metrics`); the state is fully unchanged only when the
portfolio value already equals that sum. -/
theorem check_risk_limits_frame (s : RiskManager) :
    (s.check_risk_limits).1.max_portfolio_risk = s.max_portfolio_risk ∧
    (s.check_risk_limits).1.max_position_size = s.max_position_size ∧
    (s.check_risk_limits).1.max_daily_loss = s.max_daily_loss ∧
    (s.check_risk_limits).1.max_daily_trades = s.max_daily_trades ∧
    (s.check_risk_limits).1.max_correlation_risk = s.max_correlation_risk ∧
    (s.check_risk_limits).1.default_stop_loss_percent = s.default_stop_loss_percent ∧
    (s.check_risk_limits).1.default_trailing_stop_percent = s.default_trailing_stop_percent ∧
    (s.check_risk_limits).1.daily_trades = s.daily_trades ∧
    (s.check_risk_limits).1.daily_pnl = s.daily_pnl ∧
    (s.check_risk_limits).1.daily_reset_date = s.daily_reset_date ∧
    (s.check_risk_limits).1.positions = s.positions ∧
    (s.check_risk_limits).1.portfolio_value =
      (s.positions.map (fun p => p.2.value)).sum := by
  simp [RiskManager.check_risk_limits, RiskManager.get_portfolio_risk_metrics,
    RiskManager.update_portfolio_metrics]


/-- Evaluation of the spec's validation scenario: with portfolio 100,000, no
positions, default settings, and reconciled daily counters below their
limits, the assessed trade is fully determined. -/
theorem validate_trade_scenario_eval (dt : ℕ) (pnl : ℚ) (d0 today : ℕ)
    (h1 : dt < 50) (h2 : -5000 < pnl) :
    ((rmScenario dt pnl d0).validate_trade today "XYZ" 100 500 "BUY" none).2 =
      { symbol := "XYZ"
        quantity := 100
        entry_price := 500
        current_price := 500
        stop_loss := 490
        target_price := 510
        max_loss := 1000
        risk_percentage := 1
        risk_level := RiskLevel.MEDIUM
        is_valid := true
        warnings := [] } := by
  have hb : isBuy "BUY" = true := by decide
  by_cases hd : today = d0
  · have hs : (rmScenario dt pnl d0).reset_daily_metrics today =
        rmScenario dt pnl d0 := by
      simp [RiskManager.reset_daily_metrics, rmScenario, hd]
    have hg1 : ¬((rmScenario dt pnl d0).daily_trades ≥
        (rmScenario dt pnl d0).max_daily_trades) := by
      show ¬(dt ≥ 50)
      omega
    have hg2 : ¬((rmScenario dt pnl d0).daily_pnl ≤
        -(rmScenario dt pnl d0).max_daily_loss) := by
      show ¬(pnl ≤ -(5000 : ℚ))
      linarith
    simp only [RiskManager.validate_trade, hs]
    rw [if_neg hg1, if_neg hg2]
    simp only [rmScenario, hb, if_true,
      RiskManager.determine_risk_level, RiskManager.check_correlation_risk]
    norm_num [PositionRisk.mk.injEq]
    decide
  · have hs : (rmScenario dt pnl d0).reset_daily_metrics today =
        rmScenario 0 0 today := by
      simp [RiskManager.reset_daily_metrics, rmScenario, hd]
    have hg1 : ¬((rmScenario 0 0 today).daily_trades ≥
        (rmScenario 0 0 today).max_daily_trades) := by
      show ¬((0 : ℕ) ≥ 50)
      omega
    have hg2 : ¬((rmScenario 0 0 today).daily_pnl ≤
        -(rmScenario 0 0 today).max_daily_loss) := by
      show ¬((0 : ℚ) ≤ -(5000 : ℚ))
      norm_num
    simp only [RiskManager.validate_trade, hs]
    rw [if_neg hg1, if_neg hg2]
    simp only [rmScenario, hb, if_true,
      RiskManager.determine_risk_level, RiskManager.check_correlation_risk]
    norm_num [PositionRisk.mk.injEq]
    decide

/-- C1 counterexample: in the spec's scenario (portfolio 100,000, no
positions, default settings, counters at zero), the validated trade's risk
level is not LOW: risk percentage 1.0 is exactly 50% of the 2% maximum
portfolio-risk fraction, so the ≥ 50% threshold classifies it as MEDIUM. -/
theorem validate_trade_scenario_counterexample :
    ((rmScenario 0 0 0).validate_trade 0 "XYZ" 100 500 "BUY" none).2.risk_level ≠
      RiskLevel.LOW := by
  rw [validate_trade_scenario_eval 0 0 0 0 (by norm_num) (by norm_num)]
  decide

/-- C1 (amended): in the spec's scenario — portfolio value 100,000, no
tracked positions, default settings, daily counters below their limits —
`validate_trade("XYZ", 100, 500, "BUY")` with the default 2% stop returns
stop_loss 490, max_loss 1,000, risk percentage 1.0, and is valid, but the
risk level is MEDIUM, not LOW: the ≥ 50%-of-max threshold is met exactly. -/
theorem validate_trade_scenario (dt : ℕ) (pnl : ℚ) (d0 today : ℕ)
    (h1 : dt < 50) (h2 : -5000 < pnl) :
    ((rmScenario dt pnl d0).validate_trade today "XYZ" 100 500 "BUY" none).2.stop_loss = 490 ∧
    ((rmScenario dt pnl d0).validate_trade today "XYZ" 100 500 "BUY" none).2.max_loss = 1000 ∧
    ((rmScenario dt pnl d0).validate_trade today "XYZ" 100 500 "BUY" none).2.risk_percentage = 1 ∧
    ((rmScenario dt pnl d0).validate_trade today "XYZ" 100 500 "BUY" none).2.risk_level =
      RiskLevel.MEDIUM ∧
    ((rmScenario dt pnl d0).validate_trade today "XYZ" 100 500 "BUY" none).2.is_valid = true := by
  rw [validate_trade_scenario_eval dt pnl d0 today h1 h2]
  exact ⟨rfl, rfl, rfl, rfl, rfl⟩

/-- C1 witness: the amended scenario theorem applied at zero counters on the
stored reset date. -/
theorem validate_trade_scenario_witness :
    (0 : ℕ) < 50 ∧ (-5000 : ℚ) < 0 ∧
    (((rmScenario 0 0 0).validate_trade 0 "XYZ" 100 500 "BUY" none).2.stop_loss = 490 ∧
     ((rmScenario 0 0 0).validate_trade 0 "XYZ" 100 500 "BUY" none).2.max_loss = 1000 ∧
     ((rmScenario 0 0 0).validate_trade 0 "XYZ" 100 500 "BUY" none).2.risk_percentage = 1 ∧
     ((rmScenario 0 0 0).validate_trade 0 "XYZ" 100 500 "BUY" none).2.risk_level =
       RiskLevel.MEDIUM ∧
     ((rmScenario 0 0 0).validate_trade 0 "XYZ" 100 500 "BUY" none).2.is_valid = true) :=
  ⟨by norm_num, by norm_num, validate_trade_scenario 0 0 0 0 (by norm_num) (by norm_num)⟩
